import Mathlib

/-!
Verification of the krano export pipeline (src/exporter.py, src/krano.py).

The Python source is shallowly embedded: pure computations become Lean
functions on `List`/`Nat`/`Int`/`String`; the effectful collaborators
(worker pool, file system, clock, workbook I/O) are passed in explicitly as
oracles, and Python exceptions are modelled with `Except`/sum types.
Rows of the query result are kept polymorphic (`α`): the pipeline never
inspects a row, it only slices and forwards them.
-/

set_option maxHeartbeats 1000000

namespace Krano

/-- Embeds `ExcelExporter._chunker` (src/exporter.py line 217-219):
`(seq[pos:pos + size] for pos in range(0, len(seq), size))`.
For `size ≥ 1`, Python's `range(0, n, size)` enumerates exactly
`(n + size - 1) / size` positions `0, size, 2*size, ...`, and the slice
`seq[pos:pos+size]` is `(seq.drop pos).take size`. -/
def chunker {α : Type} (seq : List α) (size : Nat) : List (List α) :=
  (List.range' 0 ((seq.length + size - 1) / size) size).map
    fun pos => (seq.drop pos).take size

/-- Embeds `ExcelExporter._calculate_total_file_count` (src/exporter.py
lines 221-228): `record_count % chunk_size`, integer part of the quotient,
plus one when the remainder is positive. -/
def calculate_total_file_count (record_count chunk_size : Nat) : Nat :=
  let mod := record_count % chunk_size
  if mod > 0 then record_count / chunk_size + 1
  else record_count / chunk_size

/-- Embeds the chunk-size validation in `ExcelExporter.__init__`
(src/exporter.py lines 154-155): the constructor raises
`ExcelExporterChunkSizeError` exactly when `self.chunk_size > 1048576`.
No other check on `chunk_size` is performed there. Python integers are
unbounded and may be negative, hence `Int`. -/
def excelExporter_init_raises (chunk_size : Int) : Bool :=
  chunk_size > 1048576

/-- Embeds `QueryResult` (src/postgresql.py lines 60-78). Rows are kept
polymorphic: the pipeline only slices and forwards them. -/
structure QueryResult (α : Type) where
  sql_statement : String
  records : List α
  column_names : List String
  query_duration : Nat
deriving DecidableEq

/-- `self.record_count = len(self.records)` (src/postgresql.py line 74). -/
def QueryResult.record_count {α : Type} (q : QueryResult α) : Nat :=
  q.records.length

/-- Embeds the fields `ExcelExportProcess.__init__` stores
(src/exporter.py lines 64-70). -/
structure ExcelExportProcess (α : Type) where
  process_name : String
  filepath : String
  records : List α
  column_names : List String
  sheet_name : String
  overwrite : Bool
deriving DecidableEq

/-- Embeds `ExcelExportProcessResult` (src/exporter.py lines 37-50).
`file_size` is the written file's byte count: the human-readable string
built by `_human_readable_size` uses float division, which is not
modelled. `creation_duration` is in whole seconds. -/
structure ExcelExportProcessResult where
  filepath : String
  file_size : Nat
  creation_duration : Nat
  row_count : Nat
deriving DecidableEq

/-- Embeds `ExcelExportProcessError` (src/exporter.py lines 23-27): the
message together with the failing process object itself. -/
structure ExcelExportProcessError (α : Type) where
  message : String
  excel_export_process : ExcelExportProcess α
deriving DecidableEq

/-- Result of calling a Python function: a normal return, or an exception
escaping the call. -/
inductive PyResult (α : Type) where
  | value (a : α)
  | raised (message : String)
deriving DecidableEq

/-- What a pool worker running `ExcelExportProcess.run` hands back: the
`isinstance` test in `ExcelExporter.export` (line 199) distinguishes the
two cases. -/
inductive RunOutcome (α : Type) where
  | result (r : ExcelExportProcessResult)
  | error (e : ExcelExportProcessError α)
deriving DecidableEq

/-- Oracle for the fallible body of `ExcelExportProcess.run`: the pandas
calls, `writer.save()` and `os.path.getsize` either raise somewhere (with
the exception's message) or yield the written file's byte size and the
elapsed whole-second duration. -/
structure FileStats where
  size : Nat
  duration : Nat
deriving DecidableEq

/-- Embeds `ExcelExportProcess.run` (src/exporter.py lines 72-101). The
whole body sits in a `try`; the `except Exception` handler converts any
raise into a returned `ExcelExportProcessError(str(e), self)`, so the
call returns normally (`PyResult.value`) in both branches. -/
def ExcelExportProcess.run {α : Type} (p : ExcelExportProcess α)
    (io : Except String FileStats) : PyResult (RunOutcome α) :=
  match io with
  | .error msg => .value (.error ⟨msg, p⟩)
  | .ok stats =>
      .value (.result ⟨p.filepath, stats.size, stats.duration,
        p.records.length⟩)

/-- The filepath identifying the task an outcome belongs to: successes
carry it directly, failures carry the whole process. -/
def RunOutcome.taskFilepath {α : Type} : RunOutcome α → String
  | .result r => r.filepath
  | .error e => e.excel_export_process.filepath

/-- Embeds `ExcelExporterResult` (src/exporter.py lines 112-120). -/
structure ExcelExporterResult (α : Type) where
  excel_export_process_results : List ExcelExportProcessResult
  excel_export_process_errors : List (ExcelExportProcessError α)
deriving DecidableEq

/-- `len(self.excel_export_process_errors) > 0` (src/exporter.py lines
118-120; spelling `has_errros` is the source's). -/
def ExcelExporterResult.has_errros {α : Type}
    (r : ExcelExporterResult α) : Bool :=
  r.excel_export_process_errors.length > 0

/-- Embeds the result-gathering loop of `ExcelExporter.export`
(src/exporter.py lines 195-204): each pool result is appended to the
error list when it is an `ExcelExportProcessError` instance, otherwise to
the result list. -/
def gatherExportResults {α : Type} :
    List (RunOutcome α) → ExcelExporterResult α
  | [] => ⟨[], []⟩
  | .result r :: rest =>
      let g := gatherExportResults rest
      ⟨r :: g.excel_export_process_results, g.excel_export_process_errors⟩
  | .error e :: rest =>
      let g := gatherExportResults rest
      ⟨g.excel_export_process_results, e :: g.excel_export_process_errors⟩

/-- Embeds the `ExcelExporter` attributes set in `__init__`
(src/exporter.py lines 145-152). `filepath_part` and `filepath_extension`
are the two components of `os.path.splitext(self.filepath)`; `splitext`
always satisfies `part + extension = filepath`, which theorems take as a
hypothesis. `chunk_size` is `Nat` here: `export` is only defined for
positive sizes (`record_count % chunk_size` raises `ZeroDivisionError`
in Python for zero). -/
structure ExcelExporter (α : Type) where
  filepath : String
  query_result : QueryResult α
  chunk_size : Nat
  sheet_name : String
  overwrite : Bool
  parallel_processes : Nat
  filepath_part : String
  filepath_extension : String
deriving DecidableEq

/-- Filename choice of `ExcelExporter.export` (src/exporter.py lines
171-174) for a given 1-based `file_counter`. -/
def ExcelExporter.xlsxFilepathFor {α : Type} (e : ExcelExporter α)
    (file_counter : Nat) : String :=
  if calculate_total_file_count e.query_result.record_count e.chunk_size = 1
  then e.filepath_part ++ e.filepath_extension
  else e.filepath_part ++ "_" ++ toString file_counter
    ++ e.filepath_extension

/-- One iteration of the dispatch loop of `ExcelExporter.export`
(src/exporter.py lines 167-185): the 1-based counter, the filename
computed for the chunk, and the dispatched `ExcelExportProcess` (`none`
when the `continue` branch skipped the chunk). -/
structure DispatchEntry (α : Type) where
  file_counter : Nat
  xlsx_filepath : String
  dispatched : Option (ExcelExportProcess α)
deriving DecidableEq

/-- Body of one iteration of the dispatch loop (src/exporter.py lines
168-185), applied to an `enumerate`d chunk (0-based index, chunk).
`disk` is the file-system oracle backing `os.path.isfile`: the bytes at a
path, or `none` when no file exists there. -/
def ExcelExporter.dispatchStep {α : Type} (e : ExcelExporter α)
    (disk : String → Option (List Nat)) (chunk : Nat × List α) :
    DispatchEntry α :=
  let file_counter := chunk.1 + 1
  let xlsx_filepath := e.xlsxFilepathFor file_counter
  if !e.overwrite && (disk xlsx_filepath).isSome then
    ⟨file_counter, xlsx_filepath, none⟩
  else
    ⟨file_counter, xlsx_filepath,
      some ⟨"Excel export process no. " ++ toString file_counter,
        xlsx_filepath, chunk.2, e.query_result.column_names,
        e.sheet_name, false⟩⟩

/-- The whole dispatch loop of `ExcelExporter.export` (src/exporter.py
lines 166-185): `file_counter` is incremented once per chunk, skipped or
not, so the loop is the enumeration of `_chunker`'s output. -/
def ExcelExporter.exportEntries {α : Type} (e : ExcelExporter α)
    (disk : String → Option (List Nat)) : List (DispatchEntry α) :=
  (chunker e.query_result.records e.chunk_size).enum.map (e.dispatchStep disk)

/-- The processes handed to `pool.apply_async` (src/exporter.py line
184), one per non-skipped chunk, in dispatch order. -/
def ExcelExporter.dispatchedProcesses {α : Type} (e : ExcelExporter α)
    (disk : String → Option (List Nat)) : List (ExcelExportProcess α) :=
  (e.exportEntries disk).filterMap (fun entry => entry.dispatched)

/-- Sequential effect of the pool workers on the disk: each dispatched
process writes one file at its own `filepath` (its bytes supplied by an
oracle); paths not written keep their previous contents. -/
def applyWrites (disk : String → Option (List Nat)) :
    List (String × List Nat) → String → Option (List Nat)
  | [] => disk
  | (p, c) :: rest =>
      applyWrites (fun q => if q = p then some c else disk q) rest

/-- Embeds `ExcelDecorationElement` (src/exporter.py lines 231-240). -/
structure ExcelDecorationElement where
  label : String
  content : String
deriving DecidableEq

/-- Embeds `ExcelDecoration` (src/exporter.py lines 243-257). -/
structure ExcelDecoration where
  sheet_name : String
  title : String
  elements : List ExcelDecorationElement
deriving DecidableEq

/-- Embeds the `ExcelDecorator` attributes (src/exporter.py lines
260-271). -/
structure ExcelDecorator where
  process_name : String
  filepath : String
  decorations : List ExcelDecoration
deriving DecidableEq

/-- Embeds `ExcelDecoratorError` (src/exporter.py lines 30-34). -/
structure ExcelDecoratorError where
  message : String
  excel_decorator : ExcelDecorator
deriving DecidableEq

/-- What a pool worker running `ExcelDecorator.decorate` hands back:
`self.filepath` on success (src/exporter.py line 343), the error object
otherwise. -/
inductive DecorateOutcome where
  | success (filepath : String)
  | error (e : ExcelDecoratorError)
deriving DecidableEq

/-- Embeds `ExcelDecorator.decorate`'s control flow (src/exporter.py
lines 282-346): the whole body sits in a `try` whose `except Exception`
handler returns `ExcelDecoratorError(str(e), self)`; on success the
method returns `self.filepath`. `io` is the oracle for the fallible
workbook calls (`load_workbook`, `wb.save`). The cell writes the body
performs are modelled separately by `ExcelDecorator.decorateWrites`. -/
def ExcelDecorator.decorate (d : ExcelDecorator)
    (io : Except String Unit) : PyResult DecorateOutcome :=
  match io with
  | .error msg => .value (.error ⟨msg, d⟩)
  | .ok _ => .value (.success d.filepath)

/-- Value written into a worksheet cell: a literal string, or the
wall-clock timestamp substituted for the reserved placeholder. The clock
is abstracted as a `Nat` tick. -/
inductive CellValue where
  | str (s : String)
  | datetime (now : Nat)
deriving DecidableEq

/-- Embeds `ExcelDecorator._replace_placeholders` (src/exporter.py lines
276-280): the reserved token is replaced by `datetime.now()` at the
moment of the call, any other content is returned unchanged. -/
def ExcelDecorator.replace_placeholders (now : Nat) (content : String) :
    CellValue :=
  if content = "CURRENT_DATETIME" then .datetime now else .str content

/-- One cell assignment performed by `ExcelDecorator.decorate`: target
cell, value, and the styling the source attaches (`Font.bold`,
`Font.size`, horizontal alignment). -/
structure CellWrite where
  cell : String
  value : CellValue
  bold : Bool
  font_size : Nat
  halign : Option String
deriving DecidableEq

/-- The cell writes for one created worksheet. -/
structure SheetWrites where
  sheet_name : String
  writes : List CellWrite
deriving DecidableEq

/-- Embeds the per-element loop of `ExcelDecorator.decorate`
(src/exporter.py lines 322-334): `cell_index` starts at 6 and increments
once per element; the label goes to column B (bold, right-aligned), the
placeholder-resolved content to column C (plain, left-aligned). -/
def decorationElementWrites (now : Nat) :
    Nat → List ExcelDecorationElement → List CellWrite
  | _, [] => []
  | cell_index, el :: rest =>
      ⟨"B" ++ toString cell_index, .str el.label, true, 11, some "right"⟩ ::
      ⟨"C" ++ toString cell_index,
        ExcelDecorator.replace_placeholders now el.content, false, 11,
        some "left"⟩ ::
      decorationElementWrites now (cell_index + 1) rest

/-- Embeds the per-decoration body of `ExcelDecorator.decorate`
(src/exporter.py lines 316-334): a new worksheet named
`decoration.sheet_name`, the title at the fixed anchor `B3` in the
22-point title font (not bold, no alignment set), then the element
rows. -/
def decorationSheetWrites (now : Nat) (d : ExcelDecoration) : SheetWrites :=
  ⟨d.sheet_name,
    ⟨"B3", .str d.title, false, 22, none⟩ ::
      decorationElementWrites now 6 d.elements⟩

/-- All worksheets `ExcelDecorator.decorate` creates, in decoration
order (src/exporter.py line 316). -/
def ExcelDecorator.decorateWrites (now : Nat) (dec : ExcelDecorator) :
    List SheetWrites :=
  dec.decorations.map (decorationSheetWrites now)

/-- Embeds `ExcelDcorationManagerResult` (src/exporter.py lines 123-131;
the class-name spelling is the source's). -/
structure ExcelDcorationManagerResult where
  excel_decoration_process_results : List String
  excel_decoration_process_errors : List ExcelDecoratorError
deriving DecidableEq

/-- `len(self.excel_decoration_process_errors) > 0` (src/exporter.py
lines 129-131). -/
def ExcelDcorationManagerResult.has_errros
    (r : ExcelDcorationManagerResult) : Bool :=
  r.excel_decoration_process_errors.length > 0

/-- Embeds the result-gathering loop of `ExcelDecorationManager.decorate`
(src/exporter.py lines 387-396): same `isinstance` partition as the
export stage. -/
def gatherDecorationResults :
    List DecorateOutcome → ExcelDcorationManagerResult
  | [] => ⟨[], []⟩
  | .success fp :: rest =>
      let g := gatherDecorationResults rest
      ⟨fp :: g.excel_decoration_process_results,
        g.excel_decoration_process_errors⟩
  | .error e :: rest =>
      let g := gatherDecorationResults rest
      ⟨g.excel_decoration_process_results,
        e :: g.excel_decoration_process_errors⟩

/-- The `Krano` attributes relevant to `Krano.export` (src/krano.py lines
37-43): whether a database configuration object was set, the export
folder path (`None` until configured), and the always-`True`
`sql_decoration` flag. -/
structure KranoConfig where
  db_connection_settings_set : Bool
  export_folderpath : Option String
  sql_decoration : Bool
deriving DecidableEq

/-- Python truthiness of an optional string: `None` and the empty string
are falsy. -/
def strTruthy : Option String → Bool
  | none => false
  | some s => !s.isEmpty

/-- How a run of `Krano.export` terminates. -/
inductive KranoOutcome where
  | raisedValueError
  | returnedEmpty
  | raisedChunkSizeError
  | raisedKranoExportError
  | raisedKranoDecorationError
  | raisedAttributeError
  | completed
deriving DecidableEq

/-- Observable effects of one `Krano.export` run: how it ended, whether
the export stage (the `ExcelExporter`) was ever started, whether the
decoration stage (the `ExcelDecorationManager`) was ever started, whether
the companion SQL file was written, and whether files were handed to the
JIRA uploader. -/
structure KranoTrace where
  outcome : KranoOutcome
  exportStageRun : Bool
  decorationStageRun : Bool
  sqlFileWritten : Bool
  uploadPerformed : Bool
deriving DecidableEq

/-- Embeds the control flow of `Krano.export` (src/krano.py lines
90-177), with the database query already performed (`result`) and the
two stage aggregates supplied by oracles. In order: the two
configuration `ValueError` guards (lines 109-115); the empty-result
early return (lines 125-127); construction of the `ExcelExporter` (line
132), which raises `ExcelExporterChunkSizeError` for an oversized chunk
size; the export-failure abort (lines 135-141); then line 145
unconditionally evaluates `excel_decorations.copy()`, which raises
`AttributeError` when the argument kept its default `None`, before the
`if excel_decorations:` guard on line 147; the decoration-failure abort
(lines 157-163); the SQL companion file write (lines 165-166); and the
JIRA upload (lines 168-177). -/
def KranoConfig.export {α : Type} (k : KranoConfig)
    (result : QueryResult α) (chunk_size : Int)
    (excel_decorations : Option (List ExcelDecoration))
    (jira_issue : Option String)
    (exporterResult : ExcelExporterResult α)
    (decorationResult : ExcelDcorationManagerResult) : KranoTrace :=
  if k.db_connection_settings_set = false then
    ⟨.raisedValueError, false, false, false, false⟩
  else if strTruthy k.export_folderpath = false then
    ⟨.raisedValueError, false, false, false, false⟩
  else if result.record_count = 0 then
    ⟨.returnedEmpty, false, false, false, false⟩
  else if chunk_size > 1048576 then
    ⟨.raisedChunkSizeError, false, false, false, false⟩
  else if exporterResult.has_errros then
    ⟨.raisedKranoExportError, true, false, false, false⟩
  else
    match excel_decorations with
    | none => ⟨.raisedAttributeError, true, false, false, false⟩
    | some decs =>
        if decs.isEmpty then
          ⟨.completed, true, false, true, strTruthy jira_issue⟩
        else if decorationResult.has_errros then
          ⟨.raisedKranoDecorationError, true, true, false, false⟩
        else
          ⟨.completed, true, true, true, strTruthy jira_issue⟩

/-! Concrete fixtures used by the witness theorems. -/

def sampleProcess : ExcelExportProcess Nat :=
  ⟨"Excel export process no. 1", "Data_1.xlsx", [1, 2], ["x"], "Sheet1",
    false⟩

def sampleDecoration : ExcelDecoration :=
  ⟨"Info", "Details",
    [⟨"Created by", "Darth Vader"⟩, ⟨"Created at", "CURRENT_DATETIME"⟩]⟩

def sampleDecorator : ExcelDecorator :=
  ⟨"Excel decoration process 1", "Data_1.xlsx", [sampleDecoration]⟩

def sampleQueryResult : QueryResult Nat :=
  ⟨"SELECT x FROM t", [10, 20, 30], ["x"], 5⟩

def sampleExporter : ExcelExporter Nat :=
  ⟨"Data.xlsx", sampleQueryResult, 2, "Sheet1", false, 2, "Data", ".xlsx"⟩

def sampleDisk : String → Option (List Nat) :=
  fun path => if path = "Data_1.xlsx" then some [1, 2, 3] else none

def sampleKranoConfig : KranoConfig := ⟨true, some "/export", true⟩

def emptyQueryResult : QueryResult Nat := ⟨"SELECT x FROM t", [], ["x"], 5⟩

def cleanExportResult : ExcelExporterResult Nat := ⟨[], []⟩

def failedExportResult : ExcelExporterResult Nat :=
  ⟨[], [⟨"disk full", sampleProcess⟩]⟩

def cleanDecorationResult : ExcelDcorationManagerResult := ⟨[], []⟩

def sampleOutcome : ExcelExportProcess Nat → RunOutcome Nat :=
  fun p => RunOutcome.result ⟨p.filepath, 0, 0, 0⟩

def sampleContent : ExcelExportProcess Nat → List Nat := fun _ => [0]

def skippedEntry : DispatchEntry Nat := ⟨1, "Data_1.xlsx", none⟩

lemma ceil_div_pos (size n : Nat) (hs : 1 ≤ size) (hn : 1 ≤ n) :
    (n + size - 1) / size = (n - 1) / size + 1 := by
  have h : n + size - 1 = (n - 1) + size := by omega
  rw [h, Nat.add_div_right _ hs]

lemma ceil_div_eq (n size : Nat) (hs : 1 ≤ size) :
    (n + size - 1) / size = n / size + (if n % size = 0 then 0 else 1) := by
  have hdm := Nat.div_add_mod n size
  by_cases hr : n % size = 0
  · rw [if_pos hr]
    rcases Nat.eq_zero_or_pos n with h0 | hpos
    · subst h0
      rw [Nat.zero_add, Nat.zero_div, Nat.div_eq_of_lt (by omega)]
    · have hq : 1 ≤ n / size := by
        rcases Nat.eq_zero_or_pos (n / size) with hq0 | h
        · exfalso; rw [hq0] at hdm; omega
        · exact h
      have h1 : n - 1 = (size - 1) + size * (n / size - 1) := by
        have hsz : size * (n / size) = size * (n / size - 1) + size := by
          rcases Nat.exists_eq_add_of_le hq with ⟨k, hk⟩
          have hk1 : 1 + k - 1 = k := by omega
          rw [hk, hk1]; ring
        omega
      rw [ceil_div_pos size n hs hpos, h1,
        Nat.add_mul_div_left _ _ (by omega : 0 < size),
        Nat.div_eq_of_lt (by omega : size - 1 < size)]
      omega
  · rw [if_neg hr]
    have hpos : 1 ≤ n := by
      rcases Nat.eq_zero_or_pos n with h0 | h
      · exfalso; subst h0; simp at hr
      · exact h
    have hrlt : n % size < size := Nat.mod_lt n (by omega)
    have h1 : n - 1 = (n % size - 1) + size * (n / size) := by omega
    rw [ceil_div_pos size n hs hpos, h1,
      Nat.add_mul_div_left _ _ (by omega : 0 < size),
      Nat.div_eq_of_lt (by omega : n % size - 1 < size)]
    omega

lemma calculate_total_file_count_eq_ceil (n size : Nat) (hs : 1 ≤ size) :
    calculate_total_file_count n size = (n + size - 1) / size := by
  unfold calculate_total_file_count
  rw [ceil_div_eq n size hs]
  by_cases hr : n % size = 0
  · simp [hr]
  · simp [hr, Nat.pos_of_ne_zero hr]

lemma chunker_nil {α : Type} (size : Nat) : chunker ([] : List α) size = [] := by
  unfold chunker
  rcases Nat.eq_zero_or_pos size with h0 | hpos
  · subst h0; simp
  · rw [List.length_nil, Nat.zero_add, Nat.div_eq_of_lt (by omega)]
    simp

lemma chunker_length {α : Type} (seq : List α) (size : Nat) :
    (chunker seq size).length = (seq.length + size - 1) / size := by
  unfold chunker
  rw [List.length_map, List.length_range']

lemma chunker_cons {α : Type} (seq : List α) (size : Nat) (hs : 1 ≤ size)
    (hne : seq ≠ []) :
    chunker seq size = seq.take size :: chunker (seq.drop size) size := by
  have hn : 1 ≤ seq.length := List.length_pos.mpr hne
  have hk : (seq.length + size - 1) / size
      = ((seq.drop size).length + size - 1) / size + 1 := by
    rw [List.length_drop, ceil_div_pos size seq.length hs hn]
    congr 1
    by_cases h : seq.length ≤ size
    · rw [Nat.div_eq_of_lt (by omega), Nat.sub_eq_zero_of_le h, Nat.zero_add,
        Nat.div_eq_of_lt (by omega)]
    · have h1 : 1 ≤ seq.length - size := by omega
      have h2 : seq.length - 1 = (seq.length - size - 1) + size := by omega
      rw [ceil_div_pos size (seq.length - size) hs h1, h2, Nat.add_div_right _ hs]
  unfold chunker
  rw [hk, List.range'_succ, List.map_cons, List.drop_zero, Nat.zero_add]
  congr 1
  have hrw : List.range' size (((seq.drop size).length + size - 1) / size) size
      = (List.range' 0 (((seq.drop size).length + size - 1) / size) size).map
          (size + ·) := by
    rw [List.map_add_range', Nat.add_zero]
  rw [hrw, List.map_map]
  apply List.map_congr_left
  intro pos _
  simp only [Function.comp_apply]
  rw [List.drop_drop]

lemma chunker_flatten {α : Type} (size : Nat) (hs : 1 ≤ size) (seq : List α) :
    (chunker seq size).flatten = seq := by
  generalize hl : seq.length = n
  induction n using Nat.strong_induction_on generalizing seq with
  | _ n ih =>
    rcases List.eq_nil_or_concat seq with hnil | _
    · subst hnil; rw [chunker_nil]; rfl
    · have hne : seq ≠ [] := by
        rintro rfl
        rename_i h; rcases h with ⟨_, _, h⟩; exact List.concat_ne_nil _ _ h.symm
      have hn : 1 ≤ seq.length := List.length_pos.mpr hne
      rw [chunker_cons seq size hs hne, List.flatten_cons,
        ih ((seq.drop size).length) (by rw [List.length_drop]; omega)
          (seq.drop size) rfl,
        List.take_append_drop]

lemma chunker_chunk_le {α : Type} (seq : List α) (size : Nat) :
    ∀ c ∈ chunker seq size, c.length ≤ size := by
  intro c hc
  unfold chunker at hc
  rcases List.mem_map.mp hc with ⟨pos, _, rfl⟩
  rw [List.length_take]
  exact Nat.min_le_left _ _

lemma chunker_length_eq_total {α : Type} (seq : List α) (size : Nat)
    (hs : 1 ≤ size) :
    (chunker seq size).length = calculate_total_file_count seq.length size := by
  rw [chunker_length, calculate_total_file_count_eq_ceil _ _ hs]

/-- C1: for every record list of length `n ≥ 0` and chunk size in
`[1, 1048576]`, `_chunker` produces `0` chunks when `n = 0` and
`⌈n / chunk_size⌉` chunks (the value `_calculate_total_file_count`
computes) when `n > 0`; every chunk has length at most `chunk_size`; and
concatenating the chunks in index order yields exactly the original list. -/
theorem chunker_correct {α : Type} (records : List α) (chunk_size : Nat)
    (h1 : 1 ≤ chunk_size) (_h2 : chunk_size ≤ 1048576) :
    (chunker records chunk_size).length
        = calculate_total_file_count records.length chunk_size
    ∧ (records.length = 0 → (chunker records chunk_size).length = 0)
    ∧ (0 < records.length → (chunker records chunk_size).length
        = (records.length + chunk_size - 1) / chunk_size)
    ∧ (∀ c ∈ chunker records chunk_size, c.length ≤ chunk_size)
    ∧ (chunker records chunk_size).flatten = records := by
  refine ⟨chunker_length_eq_total records chunk_size h1, ?_, ?_, ?_, ?_⟩
  · intro h0
    have : records = [] := List.eq_nil_of_length_eq_zero h0
    subst this
    rw [chunker_nil]; rfl
  · intro _
    exact chunker_length records chunk_size
  · exact chunker_chunk_le records chunk_size
  · exact chunker_flatten chunk_size h1 records

/-- Witness for C1 at a concrete input: five records, chunk size two. -/
theorem chunker_correct_witness :
    (chunker [10, 20, 30, 40, 50] 2).length
        = calculate_total_file_count (List.length [10, 20, 30, 40, 50]) 2
    ∧ ((List.length [10, 20, 30, 40, 50]) = 0
        → (chunker [10, 20, 30, 40, 50] 2).length = 0)
    ∧ (0 < List.length [10, 20, 30, 40, 50]
        → (chunker [10, 20, 30, 40, 50] 2).length
            = (List.length [10, 20, 30, 40, 50] + 2 - 1) / 2)
    ∧ (∀ c ∈ chunker [10, 20, 30, 40, 50] 2, c.length ≤ 2)
    ∧ (chunker [10, 20, 30, 40, 50] 2).flatten = [10, 20, 30, 40, 50] :=
  chunker_correct [10, 20, 30, 40, 50] 2 (by decide) (by decide)

/-- C2 counterexample: `chunk_size = 0` lies outside the range
`1 ≤ chunk_size ≤ 1048576`, yet `ExcelExporter.__init__` does not raise
for it — the constructor only checks the upper bound. -/
theorem chunk_size_zero_not_rejected :
    ¬ (1 ≤ (0 : Int) ∧ (0 : Int) ≤ 1048576)
    ∧ excelExporter_init_raises 0 = false := by
  exact ⟨by decide, rfl⟩

/-- C2 amended: `ExcelExporter.__init__` raises the configuration error
iff `chunk_size > 1048576`; for every `chunk_size ≤ 1048576` (including
the out-of-range values `≤ 0`) construction succeeds — the lower bound is
not validated at construction and its violation surfaces only at export
time. -/
theorem chunk_size_validation_amended (chunk_size : Int) :
    excelExporter_init_raises chunk_size = true ↔ 1048576 < chunk_size := by
  simp [excelExporter_init_raises]

/-- Witness for C2's amended theorem at a concrete oversized input. -/
theorem chunk_size_validation_amended_witness :
    excelExporter_init_raises 2000000 = true :=
  (chunk_size_validation_amended 2000000).mpr (by decide)

/-- C7: `ExcelExportProcess.run` and `ExcelDecorator.decorate` never let
an exception escape their boundary (the call yields `PyResult.value` for
every oracle); on an internal failure each returns its failure value
carrying the error message and the full process / decorator identity, and
on success each returns its success value. -/
theorem task_boundary_isolation {α : Type} :
    (∀ (p : ExcelExportProcess α) (io : Except String FileStats),
      (∃ v, p.run io = .value v)
      ∧ (∀ msg, io = .error msg → p.run io = .value (.error ⟨msg, p⟩))
      ∧ (∀ stats, io = .ok stats → p.run io
          = .value (.result ⟨p.filepath, stats.size, stats.duration,
              p.records.length⟩)))
    ∧ (∀ (d : ExcelDecorator) (io : Except String Unit),
      (∃ v, d.decorate io = .value v)
      ∧ (∀ msg, io = .error msg → d.decorate io = .value (.error ⟨msg, d⟩))
      ∧ (∀ u, io = .ok u → d.decorate io
          = .value (.success d.filepath))) := by
  constructor
  · intro p io
    refine ⟨?_, ?_, ?_⟩
    · cases io <;> exact ⟨_, rfl⟩
    · intro msg hm
      subst hm
      rfl
    · intro stats hs
      subst hs
      rfl
  · intro d io
    refine ⟨?_, ?_, ?_⟩
    · cases io <;> exact ⟨_, rfl⟩
    · intro msg hm
      subst hm
      rfl
    · intro u hu
      subst hu
      rfl

/-- Witness for C7 at concrete failing tasks. -/
theorem task_boundary_isolation_witness :
    sampleProcess.run (Except.error "disk full")
        = .value (.error ⟨"disk full", sampleProcess⟩)
    ∧ sampleDecorator.decorate (Except.error "corrupt file")
        = .value (.error ⟨"corrupt file", sampleDecorator⟩) :=
  ⟨((task_boundary_isolation (α := Nat)).1 sampleProcess
      (Except.error "disk full")).2.1 "disk full" rfl,
    ((task_boundary_isolation (α := Nat)).2 sampleDecorator
      (Except.error "corrupt file")).2.1 "corrupt file" rfl⟩

lemma gatherExport_length {α : Type} (os : List (RunOutcome α)) :
    (gatherExportResults os).excel_export_process_results.length
      + (gatherExportResults os).excel_export_process_errors.length
      = os.length := by
  induction os with
  | nil => rfl
  | cons o rest ih =>
      cases o <;> simp only [gatherExportResults, List.length_cons] <;> omega

lemma gatherExport_results_eq {α : Type} (os : List (RunOutcome α)) :
    (gatherExportResults os).excel_export_process_results
      = os.filterMap (fun o => match o with
          | .result r => some r
          | .error _ => none) := by
  induction os with
  | nil => rfl
  | cons o rest ih =>
      cases o <;> simp only [gatherExportResults, List.filterMap_cons] <;>
        rw [ih]

lemma gatherExport_errors_eq {α : Type} (os : List (RunOutcome α)) :
    (gatherExportResults os).excel_export_process_errors
      = os.filterMap (fun o => match o with
          | .error e => some e
          | .result _ => none) := by
  induction os with
  | nil => rfl
  | cons o rest ih =>
      cases o <;> simp only [gatherExportResults, List.filterMap_cons] <;>
        rw [ih]

lemma has_errros_iff {α : Type} (r : ExcelExporterResult α) :
    r.has_errros = true ↔ r.excel_export_process_errors ≠ [] := by
  simp [ExcelExporterResult.has_errros, List.length_pos]

lemma gatherDecoration_length (os : List DecorateOutcome) :
    (gatherDecorationResults os).excel_decoration_process_results.length
      + (gatherDecorationResults os).excel_decoration_process_errors.length
      = os.length := by
  induction os with
  | nil => rfl
  | cons o rest ih =>
      cases o <;> simp only [gatherDecorationResults, List.length_cons] <;>
        omega

lemma decoration_has_errros_iff (r : ExcelDcorationManagerResult) :
    r.has_errros = true ↔ r.excel_decoration_process_errors ≠ [] := by
  simp [ExcelDcorationManagerResult.has_errros, List.length_pos]

/-- C10: after the pool joins, the gathering loops place every dispatched
task's outcome in exactly one of the aggregate's two lists (successes are
exactly the success outcomes, failures exactly the failure outcomes, so
the two lengths sum to the number of dispatched tasks), and `has_errros`
holds iff the failure list is non-empty — in both the export stage and
the decoration stage. -/
theorem aggregate_partition {α : Type} (exportOutcomes : List (RunOutcome α))
    (decorationOutcomes : List DecorateOutcome) :
    ((gatherExportResults exportOutcomes).excel_export_process_results
        = exportOutcomes.filterMap (fun o => match o with
            | .result r => some r
            | .error _ => none))
    ∧ ((gatherExportResults exportOutcomes).excel_export_process_errors
        = exportOutcomes.filterMap (fun o => match o with
            | .error e => some e
            | .result _ => none))
    ∧ ((gatherExportResults exportOutcomes).excel_export_process_results.length
        + (gatherExportResults exportOutcomes).excel_export_process_errors.length
        = exportOutcomes.length)
    ∧ ((gatherExportResults exportOutcomes).has_errros = true
        ↔ (gatherExportResults exportOutcomes).excel_export_process_errors
            ≠ [])
    ∧ ((gatherDecorationResults decorationOutcomes).excel_decoration_process_results.length
        + (gatherDecorationResults decorationOutcomes).excel_decoration_process_errors.length
        = decorationOutcomes.length)
    ∧ ((gatherDecorationResults decorationOutcomes).has_errros = true
        ↔ (gatherDecorationResults decorationOutcomes).excel_decoration_process_errors
            ≠ []) :=
  ⟨gatherExport_results_eq exportOutcomes,
    gatherExport_errors_eq exportOutcomes,
    gatherExport_length exportOutcomes,
    has_errros_iff _,
    gatherDecoration_length decorationOutcomes,
    decoration_has_errros_iff _⟩

/-- Witness for C10 at concrete outcome lists (one success and one
failure per stage). -/
theorem aggregate_partition_witness :
    (gatherExportResults
        [RunOutcome.result ⟨"Data_1.xlsx", 512, 1, 2⟩,
          RunOutcome.error ⟨"disk full", sampleProcess⟩]).has_errros = true
    ↔ (gatherExportResults
        [RunOutcome.result ⟨"Data_1.xlsx", 512, 1, 2⟩,
          RunOutcome.error ⟨"disk full", sampleProcess⟩]).excel_export_process_errors
        ≠ [] :=
  (aggregate_partition
    [RunOutcome.result ⟨"Data_1.xlsx", 512, 1, 2⟩,
      RunOutcome.error ⟨"disk full", sampleProcess⟩]
    [DecorateOutcome.success "Data_1.xlsx"]).2.2.2.1

/-- C3: when the export stage succeeds and `excel_decorations` keeps its
default `None`, `Krano.export` hits `None.copy()` on line 145 — before
the decorations-present guard — and raises an uncaught `AttributeError`:
the run never reaches the decoration stage, never writes the companion
SQL file, never uploads, and never completes. -/
theorem export_none_decorations_attribute_error {α : Type}
    (k : KranoConfig) (result : QueryResult α) (chunk_size : Int)
    (jira_issue : Option String) (exporterResult : ExcelExporterResult α)
    (decorationResult : ExcelDcorationManagerResult)
    (hdb : k.db_connection_settings_set = true)
    (hfolder : strTruthy k.export_folderpath = true)
    (hrecords : result.record_count ≠ 0)
    (hchunk : chunk_size ≤ 1048576)
    (hexport : exporterResult.has_errros = false) :
    k.export result chunk_size none jira_issue exporterResult
        decorationResult
      = ⟨.raisedAttributeError, true, false, false, false⟩ := by
  have hc : ¬ (1048576 < chunk_size) := not_lt.mpr hchunk
  simp [KranoConfig.export, hdb, hfolder, hrecords, hc, hexport]

/-- Witness for C3 at a concrete configured run. -/
theorem export_none_decorations_attribute_error_witness :
    sampleKranoConfig.export sampleQueryResult 250000 none none
        cleanExportResult cleanDecorationResult
      = ⟨.raisedAttributeError, true, false, false, false⟩ :=
  export_none_decorations_attribute_error sampleKranoConfig
    sampleQueryResult 250000 none cleanExportResult cleanDecorationResult
    rfl rfl (by decide) (by decide) rfl

/-- C4: when the export aggregate contains at least one failure,
`Krano.export` raises `KranoExportError` and stops — the decoration stage
is never entered, the companion SQL file is never written, and nothing is
handed to the uploader. -/
theorem export_failure_aborts_pipeline {α : Type}
    (k : KranoConfig) (result : QueryResult α) (chunk_size : Int)
    (excel_decorations : Option (List ExcelDecoration))
    (jira_issue : Option String) (exporterResult : ExcelExporterResult α)
    (decorationResult : ExcelDcorationManagerResult)
    (hdb : k.db_connection_settings_set = true)
    (hfolder : strTruthy k.export_folderpath = true)
    (hrecords : result.record_count ≠ 0)
    (hchunk : chunk_size ≤ 1048576)
    (hexport : exporterResult.has_errros = true) :
    k.export result chunk_size excel_decorations jira_issue exporterResult
        decorationResult
      = ⟨.raisedKranoExportError, true, false, false, false⟩ := by
  have hc : ¬ (1048576 < chunk_size) := not_lt.mpr hchunk
  simp [KranoConfig.export, hdb, hfolder, hrecords, hc, hexport]

/-- Witness for C4 at a concrete failing export aggregate. -/
theorem export_failure_aborts_pipeline_witness :
    sampleKranoConfig.export sampleQueryResult 250000
        (some [sampleDecoration]) (some "KRN-1") failedExportResult
        cleanDecorationResult
      = ⟨.raisedKranoExportError, true, false, false, false⟩ :=
  export_failure_aborts_pipeline sampleKranoConfig sampleQueryResult
    250000 (some [sampleDecoration]) (some "KRN-1") failedExportResult
    cleanDecorationResult rfl rfl (by decide) (by decide) rfl

/-- C9: a run whose query result holds zero records returns immediately:
the export stage is never started (so no spreadsheet file is created and
no task dispatched), the companion SQL file is not written, nothing is
uploaded, and no error is raised. -/
theorem empty_result_returns_immediately {α : Type}
    (k : KranoConfig) (result : QueryResult α) (chunk_size : Int)
    (excel_decorations : Option (List ExcelDecoration))
    (jira_issue : Option String) (exporterResult : ExcelExporterResult α)
    (decorationResult : ExcelDcorationManagerResult)
    (hdb : k.db_connection_settings_set = true)
    (hfolder : strTruthy k.export_folderpath = true)
    (hrecords : result.record_count = 0) :
    k.export result chunk_size excel_decorations jira_issue exporterResult
        decorationResult
      = ⟨.returnedEmpty, false, false, false, false⟩ := by
  simp [KranoConfig.export, hdb, hfolder, hrecords]

/-- Witness for C9 at a concrete empty query result. -/
theorem empty_result_returns_immediately_witness :
    sampleKranoConfig.export emptyQueryResult 250000
        (some [sampleDecoration]) (some "KRN-1") cleanExportResult
        cleanDecorationResult
      = ⟨.returnedEmpty, false, false, false, false⟩ :=
  empty_result_returns_immediately sampleKranoConfig emptyQueryResult
    250000 (some [sampleDecoration]) (some "KRN-1") cleanExportResult
    cleanDecorationResult rfl rfl rfl

lemma dispatchStep_xlsx_filepath {α : Type} (e : ExcelExporter α)
    (disk : String → Option (List Nat)) (chunk : Nat × List α) :
    (e.dispatchStep disk chunk).xlsx_filepath
      = e.xlsxFilepathFor (chunk.1 + 1) := by
  simp only [ExcelExporter.dispatchStep]
  split <;> rfl

lemma dispatchStep_file_counter {α : Type} (e : ExcelExporter α)
    (disk : String → Option (List Nat)) (chunk : Nat × List α) :
    (e.dispatchStep disk chunk).file_counter = chunk.1 + 1 := by
  simp only [ExcelExporter.dispatchStep]
  split <;> rfl

lemma dispatchStep_skip {α : Type} (e : ExcelExporter α)
    (disk : String → Option (List Nat)) (chunk : Nat × List α)
    (hov : e.overwrite = false)
    (hfs : (disk (e.xlsxFilepathFor (chunk.1 + 1))).isSome = true) :
    (e.dispatchStep disk chunk).dispatched = none := by
  simp [ExcelExporter.dispatchStep, hov, hfs]

lemma dispatchStep_dispatched_some {α : Type} (e : ExcelExporter α)
    (disk : String → Option (List Nat)) (chunk : Nat × List α)
    (p : ExcelExportProcess α)
    (h : (e.dispatchStep disk chunk).dispatched = some p) :
    p.filepath = e.xlsxFilepathFor (chunk.1 + 1)
    ∧ (!e.overwrite
        && (disk (e.xlsxFilepathFor (chunk.1 + 1))).isSome) = false := by
  simp only [ExcelExporter.dispatchStep] at h
  split at h
  · simp at h
  · next hcond =>
      simp only [Option.some.injEq] at h
      subst h
      exact ⟨rfl, by simpa using hcond⟩

lemma exportEntries_map_filepath {α : Type} (e : ExcelExporter α)
    (disk : String → Option (List Nat)) :
    (e.exportEntries disk).map (fun entry => entry.xlsx_filepath)
      = (List.range (chunker e.query_result.records e.chunk_size).length).map
          (fun i => e.xlsxFilepathFor (i + 1)) := by
  unfold ExcelExporter.exportEntries
  rw [List.map_map]
  have h : ((fun entry : DispatchEntry α => entry.xlsx_filepath)
        ∘ e.dispatchStep disk)
      = ((fun i => e.xlsxFilepathFor (i + 1)) ∘ Prod.fst) := by
    funext chunk
    exact dispatchStep_xlsx_filepath e disk chunk
  rw [h, ← List.map_map, List.enum_map_fst]

lemma exportEntries_map_counter {α : Type} (e : ExcelExporter α)
    (disk : String → Option (List Nat)) :
    (e.exportEntries disk).map (fun entry => entry.file_counter)
      = (List.range (chunker e.query_result.records e.chunk_size).length).map
          (fun i => i + 1) := by
  unfold ExcelExporter.exportEntries
  rw [List.map_map]
  have h : ((fun entry : DispatchEntry α => entry.file_counter)
        ∘ e.dispatchStep disk)
      = ((fun i => i + 1) ∘ Prod.fst) := by
    funext chunk
    exact dispatchStep_file_counter e disk chunk
  rw [h, ← List.map_map, List.enum_map_fst]

lemma exportEntries_chunk_count {α : Type} (e : ExcelExporter α)
    (hcs : 1 ≤ e.chunk_size) :
    (chunker e.query_result.records e.chunk_size).length
      = calculate_total_file_count e.query_result.record_count
          e.chunk_size :=
  chunker_length_eq_total _ _ hcs

/-- C5: the chunk filenames are a function of the chunk position alone.
With total chunk count `1` the single filename is the configured path
unchanged; with total count `k > 1` the `i`-th chunk (1-based, in chunk
order) is named `base_i` with the original extension; and the name list
does not depend on the file-system state that decides which chunks are
skipped — the counter advances once per chunk, skipped or not. -/
theorem export_filename_determinism {α : Type} (e : ExcelExporter α)
    (disk disk' : String → Option (List Nat))
    (hsplit : e.filepath_part ++ e.filepath_extension = e.filepath)
    (hcs : 1 ≤ e.chunk_size) :
    ((e.exportEntries disk).map (fun entry => entry.xlsx_filepath)
        = (e.exportEntries disk').map (fun entry => entry.xlsx_filepath))
    ∧ ((e.exportEntries disk).map (fun entry => entry.file_counter)
        = List.range' 1 (chunker e.query_result.records e.chunk_size).length)
    ∧ (calculate_total_file_count e.query_result.record_count e.chunk_size
          = 1 →
        (e.exportEntries disk).map (fun entry => entry.xlsx_filepath)
          = [e.filepath])
    ∧ (∀ k, 1 < k →
        calculate_total_file_count e.query_result.record_count e.chunk_size
          = k →
        (e.exportEntries disk).map (fun entry => entry.xlsx_filepath)
          = (List.range' 1 k).map (fun i =>
              e.filepath_part ++ "_" ++ toString i
                ++ e.filepath_extension)) := by
  refine ⟨?_, ?_, ?_, ?_⟩
  · rw [exportEntries_map_filepath, exportEntries_map_filepath]
  · rw [exportEntries_map_counter, List.range'_eq_map_range]
    apply List.map_congr_left
    intro i _
    omega
  · intro htot
    rw [exportEntries_map_filepath, exportEntries_chunk_count e hcs, htot]
    simp [ExcelExporter.xlsxFilepathFor, htot, hsplit]
  · intro k hk htot
    rw [exportEntries_map_filepath, exportEntries_chunk_count e hcs, htot,
      List.range'_eq_map_range, List.map_map]
    apply List.map_congr_left
    intro i _
    simp only [Function.comp_apply, ExcelExporter.xlsxFilepathFor, htot]
    rw [if_neg (by omega), Nat.add_comm 1 i]

/-- Witness for C5 at a concrete exporter (three records, chunk size two,
so two chunks) and two disk states differing in which files exist. -/
theorem export_filename_determinism_witness :
    ((sampleExporter.exportEntries sampleDisk).map
          (fun entry => entry.xlsx_filepath)
        = (sampleExporter.exportEntries (fun _ => none)).map
            (fun entry => entry.xlsx_filepath))
    ∧ ((sampleExporter.exportEntries sampleDisk).map
          (fun entry => entry.file_counter)
        = List.range' 1
            (chunker sampleExporter.query_result.records
              sampleExporter.chunk_size).length)
    ∧ (calculate_total_file_count
          sampleExporter.query_result.record_count
          sampleExporter.chunk_size = 1 →
        (sampleExporter.exportEntries sampleDisk).map
            (fun entry => entry.xlsx_filepath)
          = [sampleExporter.filepath])
    ∧ (∀ k, 1 < k →
        calculate_total_file_count
          sampleExporter.query_result.record_count
          sampleExporter.chunk_size = k →
        (sampleExporter.exportEntries sampleDisk).map
            (fun entry => entry.xlsx_filepath)
          = (List.range' 1 k).map (fun i =>
              sampleExporter.filepath_part ++ "_" ++ toString i
                ++ sampleExporter.filepath_extension)) :=
  export_filename_determinism sampleExporter sampleDisk (fun _ => none)
    rfl (by decide)

lemma mem_dispatchedProcesses {α : Type} (e : ExcelExporter α)
    (disk : String → Option (List Nat)) (p : ExcelExportProcess α)
    (hp : p ∈ e.dispatchedProcesses disk) :
    ∃ entry ∈ e.exportEntries disk, entry.dispatched = some p := by
  unfold ExcelExporter.dispatchedProcesses at hp
  exact List.mem_filterMap.mp hp

lemma dispatched_filepath_not_on_disk {α : Type} (e : ExcelExporter α)
    (disk : String → Option (List Nat)) (p : ExcelExportProcess α)
    (hov : e.overwrite = false) (hp : p ∈ e.dispatchedProcesses disk) :
    (disk p.filepath).isSome = false := by
  rcases mem_dispatchedProcesses e disk p hp with ⟨entry, hmem, hd⟩
  rcases List.mem_map.mp hmem with ⟨chunk, _, hstep⟩
  rw [← hstep] at hd
  obtain ⟨hfp, hcond⟩ := dispatchStep_dispatched_some e disk chunk p hd
  rw [hfp, hov] at *
  simpa using hcond

lemma gatherExport_results_mem {α : Type} {r : ExcelExportProcessResult}
    {os : List (RunOutcome α)}
    (h : r ∈ (gatherExportResults os).excel_export_process_results) :
    RunOutcome.result r ∈ os := by
  rw [gatherExport_results_eq] at h
  rcases List.mem_filterMap.mp h with ⟨o, ho, hmatch⟩
  cases o with
  | result r' =>
      simp only [Option.some.injEq] at hmatch
      subst hmatch
      exact ho
  | error e' => simp at hmatch

lemma gatherExport_errors_mem {α : Type} {err : ExcelExportProcessError α}
    {os : List (RunOutcome α)}
    (h : err ∈ (gatherExportResults os).excel_export_process_errors) :
    RunOutcome.error err ∈ os := by
  rw [gatherExport_errors_eq] at h
  rcases List.mem_filterMap.mp h with ⟨o, ho, hmatch⟩
  cases o with
  | result r' => simp at hmatch
  | error e' =>
      simp only [Option.some.injEq] at hmatch
      subst hmatch
      exact ho

lemma applyWrites_not_written (path : String) :
    ∀ (ws : List (String × List Nat)) (disk : String → Option (List Nat)),
      path ∉ ws.map Prod.fst → applyWrites disk ws path = disk path := by
  intro ws
  induction ws with
  | nil => intro disk _; rfl
  | cons w rest ih =>
      intro disk h
      rw [List.map_cons, List.mem_cons] at h
      push_neg at h
      obtain ⟨h1, h2⟩ := h
      cases w with
      | mk p c =>
          simp only [applyWrites]
          rw [ih _ h2]
          simp only at h1
          rw [if_neg h1]

/-- C6: a chunk whose target file already exists while overwrite is
disabled is skipped: its loop entry dispatches no task, its filepath is
not among the dispatched tasks' targets, the pool's writes leave the
pre-existing file's bytes unchanged, and the aggregate contains no
success and no failure entry referring to that chunk's file. -/
theorem skip_policy {α : Type} (e : ExcelExporter α)
    (disk : String → Option (List Nat))
    (content : ExcelExportProcess α → List Nat)
    (outcome : ExcelExportProcess α → RunOutcome α)
    (hout : ∀ p, (outcome p).taskFilepath = p.filepath)
    (entry : DispatchEntry α) (hmem : entry ∈ e.exportEntries disk)
    (hov : e.overwrite = false)
    (hexists : (disk entry.xlsx_filepath).isSome = true) :
    entry.dispatched = none
    ∧ entry.xlsx_filepath
        ∉ (e.dispatchedProcesses disk).map (fun p => p.filepath)
    ∧ applyWrites disk
        ((e.dispatchedProcesses disk).map
          (fun p => (p.filepath, content p)))
        entry.xlsx_filepath
      = disk entry.xlsx_filepath
    ∧ (∀ r ∈ (gatherExportResults
          ((e.dispatchedProcesses disk).map outcome)).excel_export_process_results,
        r.filepath ≠ entry.xlsx_filepath)
    ∧ (∀ err ∈ (gatherExportResults
          ((e.dispatchedProcesses disk).map outcome)).excel_export_process_errors,
        err.excel_export_process.filepath ≠ entry.xlsx_filepath) := by
  have hnot : ∀ p ∈ e.dispatchedProcesses disk,
      p.filepath ≠ entry.xlsx_filepath := by
    intro p hp heq
    have hfalse := dispatched_filepath_not_on_disk e disk p hov hp
    rw [heq, hexists] at hfalse
    exact absurd hfalse (by simp)
  have h1 : entry.dispatched = none := by
    rcases List.mem_map.mp hmem with ⟨chunk, _, hstep⟩
    have hpath : entry.xlsx_filepath = e.xlsxFilepathFor (chunk.1 + 1) := by
      rw [← hstep]
      exact dispatchStep_xlsx_filepath e disk chunk
    rw [← hstep]
    exact dispatchStep_skip e disk chunk hov (by rw [← hpath]; exact hexists)
  have h2 : entry.xlsx_filepath
      ∉ (e.dispatchedProcesses disk).map (fun p => p.filepath) := by
    intro hcontra
    rcases List.mem_map.mp hcontra with ⟨p, hp, hfp⟩
    exact hnot p hp hfp
  refine ⟨h1, h2, ?_, ?_, ?_⟩
  · apply applyWrites_not_written
    rw [List.map_map]
    exact h2
  · intro r hr
    rcases List.mem_map.mp (gatherExport_results_mem hr) with ⟨p, hp, hop⟩
    have hfp := hout p
    rw [hop] at hfp
    simp only [RunOutcome.taskFilepath] at hfp
    rw [hfp]
    exact hnot p hp
  · intro err herr
    rcases List.mem_map.mp (gatherExport_errors_mem herr) with ⟨p, hp, hop⟩
    have hfp := hout p
    rw [hop] at hfp
    simp only [RunOutcome.taskFilepath] at hfp
    rw [hfp]
    exact hnot p hp

/-- Witness for C6: `Data_1.xlsx` already exists on `sampleDisk` and
overwrite is disabled, so the first of the two chunks is skipped. -/
theorem skip_policy_witness :
    skippedEntry.dispatched = none
    ∧ skippedEntry.xlsx_filepath
        ∉ (sampleExporter.dispatchedProcesses sampleDisk).map
            (fun p => p.filepath)
    ∧ applyWrites sampleDisk
        ((sampleExporter.dispatchedProcesses sampleDisk).map
          (fun p => (p.filepath, sampleContent p)))
        skippedEntry.xlsx_filepath
      = sampleDisk skippedEntry.xlsx_filepath
    ∧ (∀ r ∈ (gatherExportResults
          ((sampleExporter.dispatchedProcesses sampleDisk).map
            sampleOutcome)).excel_export_process_results,
        r.filepath ≠ skippedEntry.xlsx_filepath)
    ∧ (∀ err ∈ (gatherExportResults
          ((sampleExporter.dispatchedProcesses sampleDisk).map
            sampleOutcome)).excel_export_process_errors,
        err.excel_export_process.filepath ≠ skippedEntry.xlsx_filepath) :=
  skip_policy sampleExporter sampleDisk sampleContent sampleOutcome
    (fun _ => rfl) skippedEntry (by decide) (by decide) (by decide)

lemma decorationElementWrites_getElem (now : Nat) :
    ∀ (els : List ExcelDecorationElement) (start i : Nat)
      (hi : i < els.length),
      (decorationElementWrites now start els)[2 * i]?
          = some ⟨"B" ++ toString (start + i), .str els[i].label, true, 11,
              some "right"⟩
      ∧ (decorationElementWrites now start els)[2 * i + 1]?
          = some ⟨"C" ++ toString (start + i),
              ExcelDecorator.replace_placeholders now els[i].content,
              false, 11, some "left"⟩ := by
  intro els
  induction els with
  | nil =>
      intro start i hi
      simp at hi
  | cons el rest ih =>
      intro start i hi
      cases i with
      | zero => simp [decorationElementWrites]
      | succ j =>
          have hj : j < rest.length := by
            simpa using Nat.lt_of_succ_lt_succ hi
          obtain ⟨ihB, ihC⟩ := ih (start + 1) j hj
          have hst : start + 1 + j = start + (j + 1) := by omega
          rw [hst] at ihB ihC
          have hmul : 2 * (j + 1) = 2 * j + 1 + 1 := by ring
          constructor
          · rw [hmul]
            simp only [decorationElementWrites, List.getElem?_cons_succ,
              List.getElem_cons_succ]
            exact ihB
          · rw [hmul]
            simp only [decorationElementWrites, List.getElem?_cons_succ,
              List.getElem_cons_succ]
            exact ihC

/-- C8: a successful decoration writes the spec's title to the fixed
anchor cell `B3` of the newly created worksheet; element `i` (0-based)
writes its label to `B(6+i)` in bold, right-aligned, and its content to
`C(6+i)` plain, left-aligned; the content is written verbatim unless it
is the reserved token `CURRENT_DATETIME`, which is resolved to the
write-time timestamp. -/
theorem decoration_cell_layout (now : Nat) (dec : ExcelDecorator)
    (d : ExcelDecoration) (hd : d ∈ dec.decorations) (i : Nat)
    (hi : i < d.elements.length) :
    decorationSheetWrites now d ∈ dec.decorateWrites now
    ∧ (decorationSheetWrites now d).sheet_name = d.sheet_name
    ∧ (decorationSheetWrites now d).writes.head?
        = some ⟨"B3", .str d.title, false, 22, none⟩
    ∧ ((decorationSheetWrites now d).writes.drop 1)[2 * i]?
        = some ⟨"B" ++ toString (6 + i), .str d.elements[i].label, true,
            11, some "right"⟩
    ∧ ((decorationSheetWrites now d).writes.drop 1)[2 * i + 1]?
        = some ⟨"C" ++ toString (6 + i),
            ExcelDecorator.replace_placeholders now d.elements[i].content,
            false, 11, some "left"⟩
    ∧ (d.elements[i].content ≠ "CURRENT_DATETIME" →
        ExcelDecorator.replace_placeholders now d.elements[i].content
          = .str d.elements[i].content)
    ∧ (d.elements[i].content = "CURRENT_DATETIME" →
        ExcelDecorator.replace_placeholders now d.elements[i].content
          = .datetime now) := by
  obtain ⟨hB, hC⟩ := decorationElementWrites_getElem now d.elements 6 i hi
  refine ⟨List.mem_map_of_mem _ hd, rfl, rfl, ?_, ?_, ?_, ?_⟩
  · simpa [decorationSheetWrites] using hB
  · simpa [decorationSheetWrites] using hC
  · intro h
    simp [ExcelDecorator.replace_placeholders, h]
  · intro h
    simp [ExcelDecorator.replace_placeholders, h]

/-- Witness for C8 at the sample decoration's second element, whose
content is the reserved placeholder. -/
theorem decoration_cell_layout_witness :
    decorationSheetWrites 42 sampleDecoration
        ∈ sampleDecorator.decorateWrites 42
    ∧ (decorationSheetWrites 42 sampleDecoration).sheet_name = "Info"
    ∧ (decorationSheetWrites 42 sampleDecoration).writes.head?
        = some ⟨"B3", .str "Details", false, 22, none⟩
    ∧ ((decorationSheetWrites 42 sampleDecoration).writes.drop 1)[2 * 1]?
        = some ⟨"B7", .str "Created at", true, 11, some "right"⟩
    ∧ ((decorationSheetWrites 42 sampleDecoration).writes.drop 1)[2 * 1 + 1]?
        = some ⟨"C7", ExcelDecorator.replace_placeholders 42
            "CURRENT_DATETIME", false, 11, some "left"⟩
    ∧ ("CURRENT_DATETIME" ≠ "CURRENT_DATETIME" →
        ExcelDecorator.replace_placeholders 42 "CURRENT_DATETIME"
          = .str "CURRENT_DATETIME")
    ∧ ("CURRENT_DATETIME" = "CURRENT_DATETIME" →
        ExcelDecorator.replace_placeholders 42 "CURRENT_DATETIME"
          = .datetime 42) :=
  decoration_cell_layout 42 sampleDecorator sampleDecoration
    (List.mem_singleton.mpr rfl) 1 (by decide)

end Krano
